import Mathlib

/-!
Verification of the attendance time-tracking client.

This file shallowly embeds the Time-Tracking Session & Geofence Engine of
the mobile attendance client: the geofence evaluator (`haversineMeters`,
`isWithin`, `checkOfficeRange`), the location-watch accuracy filter
(`watchCallback`), the office-location fetch fallback (`officeFetchOk`,
`officeFetchFail`), the biometric gate (`authenticate`), the session
reconciler run on each records refresh (`reconcile`), the time-in/time-out
orchestrators (`handleTimeIn`, `handleTimeOut`) and the offset-adjustment
validator (`handleOffsetSubmit`).

Modelling conventions: the inline Haversine computation over JavaScript
floats is embedded exactly over the reals as `haversineMeters` (the reals
are noncomputable, so the state-machine functions take the rounded-distance
function as an explicit parameter and every theorem about them quantifies
over it); timestamps and dates carried in records stay strings, with the
`new Date(...)` valuation and the `formatRecordDate` formatting passed as
parameters where the code applies them; fallible calls (the biometric
platform call, the server) become explicit oracle arguments; JavaScript
truthiness of optional strings and numbers is modelled by `jsTruthyStr` and
the explicit zero test in `watchCallback`.
-/

namespace AttendanceClient

/-- AM or PM half-day session, as selected on the time-tracking screen. -/
inductive Session
  | AM
  | PM
deriving DecidableEq

/-- One calendar day's attendance record, mirroring the `TimeRecord`
interface of the time-tracking screen (fields not read by the verified
logic are omitted). `date` and the time fields stay strings as on the
wire; `rid` is the Mongo `_id`. -/
structure TimeRecord where
  rid : String
  date : String
  timeIn : Option String
  timeOut : Option String
  amTimeIn : Option String
  amTimeOut : Option String
  pmTimeIn : Option String
  pmTimeOut : Option String
  undertime : Option ℚ
  makeup : Option ℚ
  makeupDate : Option String
deriving DecidableEq

/-- JavaScript truthiness of an optional string field: `undefined`/`null`
and the empty string are falsy, every other string is truthy. -/
def jsTruthyStr (o : Option String) : Bool :=
  match o with
  | some s => !(s == "")
  | none => false

/-- Openness test the code applies when looking for an active record of a
session: the session's own time-in is set with its time-out unset, or the
legacy single-session `timeIn` is set with `timeOut` unset. -/
def openForSession (s : Session) (r : TimeRecord) : Bool :=
  match s with
  | .AM => (jsTruthyStr r.amTimeIn && !jsTruthyStr r.amTimeOut) ||
           (jsTruthyStr r.timeIn && !jsTruthyStr r.timeOut)
  | .PM => (jsTruthyStr r.pmTimeIn && !jsTruthyStr r.pmTimeOut) ||
           (jsTruthyStr r.timeIn && !jsTruthyStr r.timeOut)

/-- Session-state resolution performed at the end of `fetchTimeRecords`,
embedded from the code: filter the (date-sorted) records to today's,
find the first open AM and PM records, then keep the previous session when
it has an open record, otherwise prefer AM, then PM, then fall back to the
hour of day with no active record. `dayOf` models
`new Date(r.date).setHours(0,0,0,0)` and `today` the corresponding value
for the current day. -/
def reconcile (dayOf : String → ℤ) (today : ℤ) (prev : Session) (nowHour : ℤ)
    (records : List TimeRecord) : Session × Option TimeRecord :=
  let todayRecords := records.filter (fun r => dayOf r.date == today)
  let activeAMRecord := todayRecords.find? (openForSession .AM)
  let activePMRecord := todayRecords.find? (openForSession .PM)
  if prev == .AM && activeAMRecord.isSome then (.AM, activeAMRecord)
  else if prev == .PM && activePMRecord.isSome then (.PM, activePMRecord)
  else if activeAMRecord.isSome then (.AM, activeAMRecord)
  else if activePMRecord.isSome then (.PM, activePMRecord)
  else (if nowHour < 12 then .AM else .PM, none)

/-- Resolution order as the specification words it: if the previously
active session has an open today-record keep it with that record, else
select AM with its open record, else PM with its open record, else pick
the session from the hour of day with no active record. Used to compare
the code's `reconcile` against the specification. -/
def reconcileSpec (dayOf : String → ℤ) (today : ℤ) (prev : Session) (nowHour : ℤ)
    (records : List TimeRecord) : Session × Option TimeRecord :=
  let todayRecords := records.filter (fun r => dayOf r.date == today)
  match todayRecords.find? (openForSession prev) with
  | some r => (prev, some r)
  | none =>
    match todayRecords.find? (openForSession .AM) with
    | some r => (.AM, some r)
    | none =>
      match todayRecords.find? (openForSession .PM) with
      | some r => (.PM, some r)
      | none => (if nowHour < 12 then .AM else .PM, none)

/-- Character-list analogue of `String.startsWith`, used to build the
substring test below. -/
def hasPre : List Char → List Char → Bool
  | [], _ => true
  | _ :: _, [] => false
  | a :: as, b :: bs => a == b && hasPre as bs

/-- Character-list substring test: does `sub` occur contiguously in the
second list. -/
def hasSub (sub : List Char) : List Char → Bool
  | [] => sub.isEmpty
  | b :: bs => hasPre sub (b :: bs) || hasSub sub bs

/-- Embedding of JavaScript `s.includes(pat)`: `pat` occurs contiguously
in `s`. -/
def strIncludes (s pat : String) : Bool :=
  hasSub pat.data s.data

/-- Geographic coordinate in degrees, as latitude/longitude rationals
(the exact values a finite JavaScript float can carry). -/
structure Coord where
  lat : ℚ
  lon : ℚ
deriving DecidableEq

/-- Office location as fetched from the server: `coordinates` is the
GeoJSON `[longitude, latitude]` pair, `radius` the geofence radius in
meters. -/
structure OfficeLocation where
  oid : String
  name : String
  coordinates : ℚ × ℚ
  radius : ℚ
  address : String
deriving DecidableEq

/-- Hardcoded default office substituted when the office-location fetch
fails, with the coordinates and 100 m radius from the code. -/
def defaultOffice : OfficeLocation :=
  { oid := "default_office_id"
    name := "Default Office"
    coordinates := (120.59097690306716, 18.20585558594641)
    radius := 100
    address := "Default Office Address" }

/-- Non-strict geofence membership comparison the code performs:
`distance <= officeLocation.radius` on the rounded meter distance. -/
def isWithin (d : ℤ) (r : ℚ) : Bool :=
  decide ((d : ℚ) ≤ r)

/-- Geofence-related state of the time-tracking screen: the four React
state cells read and written by `checkOfficeRange`, the location watch and
the office-location fetch, with their initial values in `initGeoState`. -/
structure GeoState where
  currentLocation : Option Coord
  officeLocation : Option OfficeLocation
  isWithinRange : Bool
  distance : Option ℤ
deriving DecidableEq

/-- Initial values of the geofence state cells: no location, no office,
`isWithinRange = false`, `distance = null`. -/
def initGeoState : GeoState :=
  { currentLocation := none
    officeLocation := none
    isWithinRange := false
    distance := none }

/-- Embedding of `checkOfficeRange`: with no office location or no
location argument it changes nothing; otherwise it destructures the
office `[longitude, latitude]` pair, computes the rounded Haversine
distance (the rounded-distance function `hav`, applied office latitude,
office longitude, user latitude, user longitude) and stores the distance
and the non-strict radius comparison. -/
def checkOfficeRange (hav : ℚ → ℚ → ℚ → ℚ → ℤ) (s : GeoState)
    (loc : Option Coord) : GeoState :=
  match s.officeLocation, loc with
  | some office, some l =>
    let officeLong := office.coordinates.1
    let officeLat := office.coordinates.2
    let d := hav officeLat officeLong l.lat l.lon
    { s with distance := some d, isWithinRange := isWithin d office.radius }
  | _, _ => s

/-- Action the location-watch callback takes besides its state update:
re-evaluate the geofence, start an office-location fetch, or ignore the
sample. -/
inductive WatchAct
  | updated
  | fetchOffice
  | ignored
deriving DecidableEq

/-- Embedding of the `watchPositionAsync` callback: the sample is used
only when `location.coords.accuracy && location.coords.accuracy < 30`
holds under JavaScript truthiness (accuracy present, nonzero and below
30 m); then the current location is updated and the geofence re-evaluated
when an office is known, else an office fetch is started. Every other
sample is logged and ignored. -/
def watchCallback (hav : ℚ → ℚ → ℚ → ℚ → ℤ) (s : GeoState) (loc : Coord)
    (acc : Option ℚ) : GeoState × WatchAct :=
  match acc with
  | some a =>
    if !(a == 0) && decide (a < 30) then
      let s1 := { s with currentLocation := some loc }
      match s.officeLocation with
      | some _ => (checkOfficeRange hav s1 (some loc), .updated)
      | none => (s1, .fetchOffice)
    else (s, .ignored)
  | none => (s, .ignored)

/-- Embedding of the success path of `fetchOfficeLocation`: store the
fetched office, then re-evaluate the range against the current location
when one is known, else reset `isWithinRange` to `false` and `distance`
to `null`. -/
def officeFetchOk (hav : ℚ → ℚ → ℚ → ℚ → ℤ) (s : GeoState)
    (office : OfficeLocation) : GeoState :=
  let s1 := { s with officeLocation := some office }
  match s.currentLocation with
  | some loc => checkOfficeRange hav s1 (some loc)
  | none => { s1 with isWithinRange := false, distance := none }

/-- Embedding of the failure path of `fetchOfficeLocation`: substitute the
hardcoded default office and reset `isWithinRange` to `false` (the stored
distance is left as is). -/
def officeFetchFail (s : GeoState) : GeoState :=
  { s with officeLocation := some defaultOffice, isWithinRange := false }

/-- Events that mutate the geofence state: an initial/current location
fix (`getCurrentLocation` success, which stores the location and calls
`checkOfficeRange`), a watch sample, and the two outcomes of the
office-location fetch. -/
inductive GeoEvent
  | gotLocation (loc : Coord)
  | watchSample (loc : Coord) (acc : Option ℚ)
  | officeFetched (office : OfficeLocation)
  | officeFetchFailed

/-- One geofence state transition per event. -/
def geoStep (hav : ℚ → ℚ → ℚ → ℚ → ℤ) (s : GeoState) : GeoEvent → GeoState
  | .gotLocation loc =>
    checkOfficeRange hav { s with currentLocation := some loc } (some loc)
  | .watchSample loc acc => (watchCallback hav s loc acc).1
  | .officeFetched office => officeFetchOk hav s office
  | .officeFetchFailed => officeFetchFail s

/-- Run of the geofence state machine from the initial state. -/
def geoRun (hav : ℚ → ℚ → ℚ → ℚ → ℤ) (evs : List GeoEvent) : GeoState :=
  evs.foldl (geoStep hav) initGeoState

/-- Invariant of the geofence state: `isWithinRange` is `true` only when a
current location and an office location are both known and the most
recently stored rounded distance is within the office radius. -/
def GeoInv (s : GeoState) : Prop :=
  s.isWithinRange = true →
    ∃ loc office d, s.currentLocation = some loc ∧
      s.officeLocation = some office ∧ s.distance = some d ∧
      (d : ℚ) ≤ office.radius

/-- Biometric capability and preference snapshot held by the
`useBiometricAuth` hook: hardware availability, enrollment, and the
server-mirrored "enabled" preference. -/
structure BiometricStatus where
  available : Bool
  enrolled : Bool
  enabled : Bool
deriving DecidableEq

/-- Options passed to the platform biometric call
(`LocalAuthentication.authenticateAsync`). -/
structure AuthOptions where
  promptMessage : String
  fallbackLabel : String
  disableDeviceFallback : Bool

/-- Embedding of the hook's `authenticate`: deny when hardware is
unavailable or nothing is enrolled; allow without prompting when the
preference is off and this is neither a time-tracking prompt nor a forced
authentication; otherwise run the platform call with the device-passcode
fallback disabled (`fallbackLabel` empty, `disableDeviceFallback` true)
and return its success. `authImpl` is the platform oracle. -/
def authenticate (status : BiometricStatus) (authImpl : AuthOptions → Bool)
    (promptMessage : String) (forceAuth : Bool) : Bool :=
  if !status.available || !status.enrolled then false
  else
    let isTimeTrackingOperation :=
      strIncludes promptMessage "time in" || strIncludes promptMessage "time out"
    if !status.enabled && !isTimeTrackingOperation && !forceAuth then true
    else
      authImpl { promptMessage := promptMessage, fallbackLabel := "",
                 disableDeviceFallback := true }

/-- Observable steps of the time-in / time-out / offset handlers, in the
order the code performs them: toast messages, the biometric
availability/enrollment check, the `authenticate` call, a network POST,
the full records refresh (`fetchTimeRecords`) and the login redirect taken
when no stored token is found. -/
inductive Ev
  | toastEv (msg : String) (kind : String)
  | bioCheck
  | authCall (prompt : String) (force : Bool)
  | netPost (url : String)
  | refresh
  | redirectLogin
deriving DecidableEq

/-- Server reply to a mutation request: success with a message, or failure
carrying the optional `error` field of the response body. -/
inductive ServerReply
  | ok (message : String)
  | fail (errField : Option String)
deriving DecidableEq

/-- JavaScript `a || b` on an optional string: the fallback is used when
the field is absent or empty. -/
def jsOrStr (o : Option String) (fallback : String) : String :=
  match o with
  | some s => if s == "" then fallback else s
  | none => fallback

/-- Interpolation of the nullable `distance` state into a template string,
as JavaScript renders `${distance}`. -/
def jsShowDist (d : Option ℤ) : String :=
  match d with
  | some n => toString n
  | none => "null"

/-- Denial toast of `handleTimeIn` when out of range, with the distance
state interpolated. -/
def timeInRangeMsg (d : Option ℤ) : String :=
  "You must be within office range to time in. You are currently " ++
    jsShowDist d ++ " meters away from the office."

/-- Denial toast of `handleTimeOut` when out of range, with the distance
state interpolated. -/
def timeOutRangeMsg (d : Option ℤ) : String :=
  "You must be within office range to time out. You are currently " ++
    jsShowDist d ++ " meters away from the office."

/-- Local state of the time-tracking screen read and written by the
time-in/time-out handlers: the geofence cells they read plus the session
cells (`activeSession`, `activeTimeRecord`, `timeRecords`). -/
structure TTState where
  currentLocation : Option Coord
  isWithinRange : Bool
  distance : Option ℤ
  activeSession : Session
  activeTimeRecord : Option TimeRecord
  timeRecords : List TimeRecord
deriving DecidableEq

/-- Embedding of `handleTimeIn`: deny on missing location, then on the
geofence, then on biometric availability/enrollment, then on the
`authenticate` result; with a stored token it POSTs the time-in and on
success toasts the server message and refreshes the records, on failure
toasts the server `error` field (or the fallback text). Returns the
ordered observable steps and the resulting local state. -/
def handleTimeIn (s : TTState) (bio : BiometricStatus)
    (authImpl : AuthOptions → Bool) (token : Option String)
    (server : ServerReply) : List Ev × TTState :=
  match s.currentLocation with
  | none => ([.toastEv "Unable to get your current location" "error"], s)
  | some _ =>
    if !s.isWithinRange then
      ([.toastEv (timeInRangeMsg s.distance) "warning"], s)
    else if !bio.available || !bio.enrolled then
      ([.bioCheck,
        .toastEv "Biometric authentication is not set up on this device. Please enroll your fingerprint in device settings." "error"], s)
    else if !(authenticate bio authImpl "Authenticate to time in" true) then
      ([.bioCheck, .authCall "Authenticate to time in" true,
        .toastEv "Biometric authentication failed or was cancelled" "error"], s)
    else
      match token with
      | none => ([.bioCheck, .authCall "Authenticate to time in" true,
                  .redirectLogin], s)
      | some _ =>
        match server with
        | .ok msg =>
          ([.bioCheck, .authCall "Authenticate to time in" true,
            .netPost "/api/time-records/time-in",
            .toastEv msg "success", .refresh], s)
        | .fail e =>
          ([.bioCheck, .authCall "Authenticate to time in" true,
            .netPost "/api/time-records/time-in",
            .toastEv (jsOrStr e "Failed to record time-in") "error"], s)

/-- Embedding of `handleTimeOut`: deny on missing active record, then on
missing location, the geofence, biometric availability/enrollment and the
`authenticate` result; with a stored token it POSTs the time-out against
the active record's id and on success toasts the server message, clears
the active record and refreshes; on failure toasts the server `error`
field (or the fallback text). -/
def handleTimeOut (s : TTState) (bio : BiometricStatus)
    (authImpl : AuthOptions → Bool) (token : Option String)
    (server : ServerReply) : List Ev × TTState :=
  match s.activeTimeRecord with
  | none => ([.toastEv "No active time record found" "error"], s)
  | some r =>
    match s.currentLocation with
    | none => ([.toastEv "Unable to get your current location" "error"], s)
    | some _ =>
      if !s.isWithinRange then
        ([.toastEv (timeOutRangeMsg s.distance) "warning"], s)
      else if !bio.available || !bio.enrolled then
        ([.bioCheck,
          .toastEv "Biometric authentication is not set up on this device. Please enroll your fingerprint in device settings." "error"], s)
      else if !(authenticate bio authImpl "Authenticate to time out" true) then
        ([.bioCheck, .authCall "Authenticate to time out" true,
          .toastEv "Biometric authentication failed or was cancelled" "error"], s)
      else
        match token with
        | none => ([.bioCheck, .authCall "Authenticate to time out" true,
                    .redirectLogin], s)
        | some _ =>
          match server with
          | .ok msg =>
            ([.bioCheck, .authCall "Authenticate to time out" true,
              .netPost ("/api/time-records/" ++ r.rid ++ "/time-out"),
              .toastEv msg "success", .refresh],
             { s with activeTimeRecord := none })
          | .fail e =>
            ([.bioCheck, .authCall "Authenticate to time out" true,
              .netPost ("/api/time-records/" ++ r.rid ++ "/time-out"),
              .toastEv (jsOrStr e "Failed to record time-out") "error"], s)

/-- Event classifier: network POSTs. -/
def isNetPost : Ev → Bool
  | .netPost _ => true
  | _ => false

/-- Event classifier: biometric-gate steps (the availability/enrollment
check and the `authenticate` call). -/
def isBioEvent : Ev → Bool
  | .bioCheck => true
  | .authCall _ _ => true
  | _ => false

/-- Test of the makeup-date regular expression
`^\d{4}-\d{2}-\d{2}$`: exactly four digits, a dash, two digits, a dash,
two digits. -/
def matchesDatePattern (s : String) : Bool :=
  match s.data with
  | [y1, y2, y3, y4, s1, m1, m2, s2, d1, d2] =>
    y1.isDigit && y2.isDigit && y3.isDigit && y4.isDigit &&
      (s1 == '-') && m1.isDigit && m2.isDigit && (s2 == '-') &&
      d1.isDigit && d2.isDigit
  | _ => false

/-- Inputs of `handleOffsetSubmit` as held in the screen state when the
offset modal is submitted. -/
structure OffsetIn where
  selectedRecord : Option TimeRecord
  makeupDate : String
  undertimeDate : String
  availableDates : List String
  timeRecords : List TimeRecord
  undertime : ℚ
  makeup : ℚ
  token : Option String

/-- Embedding of `handleOffsetSubmit`, in the code's order: require a
selected record; reject a provided makeup date that fails the date
pattern; require the undertime date among the available record dates;
look up the record whose formatted date equals the undertime date; reject
a provided makeup date earlier than today; then with a stored token POST
the offset against the found record's id. `fmt` models
`formatRecordDate`, `dayVal` the `new Date(...)` day valuation used in
the today comparison, `today` today's value. -/
def handleOffsetSubmit (fmt : String → String) (dayVal : String → ℤ)
    (today : ℤ) (i : OffsetIn) (server : ServerReply) : List Ev :=
  match i.selectedRecord with
  | none => [.toastEv "No record selected" "error"]
  | some _ =>
    if !(i.makeupDate == "") && !(matchesDatePattern i.makeupDate) then
      [.toastEv "Makeup date must be in YYYY-MM-DD format" "error"]
    else if !(i.availableDates.contains i.undertimeDate) then
      [.toastEv "Undertime date must exist in daily records" "error"]
    else
      match i.timeRecords.find? (fun r => fmt r.date == i.undertimeDate) with
      | none => [.toastEv "Could not find the selected undertime date record" "error"]
      | some ur =>
        if !(i.makeupDate == "") && decide (dayVal i.makeupDate < today) then
          [.toastEv "Makeup date must be today or a future date" "error"]
        else
          match i.token with
          | none => [.redirectLogin]
          | some _ =>
            match server with
            | .ok msg =>
              [.netPost ("/api/time-records/" ++ ur.rid ++ "/offset"),
               .toastEv msg "success", .refresh]
            | .fail e =>
              [.netPost ("/api/time-records/" ++ ur.rid ++ "/offset"),
               .toastEv (jsOrStr e "Failed to submit offset") "error"]

/-- Embedding of JavaScript `Math.atan2` over the reals, restricted to
its real-valued branches. -/
noncomputable def jsAtan2 (y x : ℝ) : ℝ :=
  if 0 < x then Real.arctan (y / x)
  else if x < 0 then
    if 0 ≤ y then Real.arctan (y / x) + Real.pi
    else Real.arctan (y / x) - Real.pi
  else
    if 0 < y then Real.pi / 2
    else if y < 0 then -(Real.pi / 2)
    else 0

/-- Exact-real embedding of the Haversine distance computation inlined in
`checkOfficeRange`: Earth radius 6,371,000 m, angles in radians, the delta
values computed office-minus-user, and the result rounded to the nearest
meter as `Math.round` does. -/
noncomputable def haversineMeters (officeLat officeLong userLat userLong : ℝ) : ℤ :=
  let R : ℝ := 6371000
  let phi1 := userLat * Real.pi / 180
  let phi2 := officeLat * Real.pi / 180
  let dPhi := (officeLat - userLat) * Real.pi / 180
  let dLam := (officeLong - userLong) * Real.pi / 180
  let a := Real.sin (dPhi / 2) * Real.sin (dPhi / 2) +
    Real.cos phi1 * Real.cos phi2 * (Real.sin (dLam / 2) * Real.sin (dLam / 2))
  let c := 2 * jsAtan2 (Real.sqrt a) (Real.sqrt (1 - a))
  round (R * c)

/-- Concrete record with an open AM session (amTimeIn set, amTimeOut
unset), used to exercise the session resolution. -/
def recAM : TimeRecord :=
  { rid := "r1", date := "2025-10-12", timeIn := none, timeOut := none,
    amTimeIn := some "2025-10-12T08:00:00", amTimeOut := none,
    pmTimeIn := none, pmTimeOut := none,
    undertime := none, makeup := none, makeupDate := none }

/-- Concrete completed record used as the selected record of the offset
modal in test inputs. -/
def rSel : TimeRecord :=
  { rid := "selrec", date := "2025-09-01", timeIn := none, timeOut := none,
    amTimeIn := some "2025-09-01T08:00:00", amTimeOut := some "2025-09-01T12:00:00",
    pmTimeIn := none, pmTimeOut := none,
    undertime := none, makeup := none, makeupDate := none }

/-- Concrete open record used as the active record in time-out test
inputs. -/
def r0 : TimeRecord :=
  { rid := "rec1", date := "2025-10-12", timeIn := none, timeOut := none,
    amTimeIn := some "2025-10-12T08:00:00", amTimeOut := none,
    pmTimeIn := none, pmTimeOut := none,
    undertime := none, makeup := none, makeupDate := none }

/-- Concrete user coordinate for test inputs. -/
def coord0 : Coord := ⟨18.2058, 120.591⟩

/-- Biometric snapshot with hardware available and enrolled but the
preference off, for test inputs. -/
def bioOn : BiometricStatus := ⟨true, true, false⟩

/-- Platform biometric oracle that always succeeds, for test inputs. -/
def allowAll : AuthOptions → Bool := fun _ => true

/-- Screen state in which every time-out precondition holds: a location
inside the geofence and an active record. -/
def sGood : TTState :=
  { currentLocation := some coord0, isWithinRange := true, distance := some 50,
    activeSession := .AM, activeTimeRecord := some r0, timeRecords := [r0] }

/-- Screen state with no location fix yet, out of range, with a stale
stored distance of 150 m. -/
def sNoLoc : TTState :=
  { currentLocation := none, isWithinRange := false, distance := some 150,
    activeSession := .AM, activeTimeRecord := none, timeRecords := [] }

theorem hasPre_append_right (x t : List Char) : hasPre x (x ++ t) = true := by
  induction x with
  | nil => rfl
  | cons c cs ih => simp [hasPre, ih]

theorem hasSub_nil_left (l : List Char) : hasSub [] l = true := by
  cases l <;> simp [hasSub, hasPre]

theorem hasSub_of_mid (a x b : List Char) : hasSub x (a ++ (x ++ b)) = true := by
  induction a with
  | nil =>
    cases x with
    | nil => exact hasSub_nil_left _
    | cons c cs =>
      have h := hasPre_append_right (c :: cs) b
      simp only [List.cons_append] at h
      show hasSub (c :: cs) ((c :: cs) ++ b) = true
      simp [hasSub, h]
  | cons c as ih => simp [hasSub, ih]

theorem strIncludes_mid (p x q : String) : strIncludes (p ++ x ++ q) x = true := by
  unfold strIncludes
  rw [String.data_append, String.data_append, List.append_assoc]
  exact hasSub_of_mid p.data x.data q.data

/-- C7: geofence membership is the non-strict comparison — after
`checkOfficeRange` runs with an office present, `isWithinRange` holds iff
the rounded distance is at most the office radius; and for a fixed radius
`isWithin` is true exactly on distances up to the radius, hence monotone
in the distance in both directions. -/
theorem checkOfficeRange_membership :
    ∀ (hav : ℚ → ℚ → ℚ → ℚ → ℤ) (s : GeoState) (office : OfficeLocation) (loc : Coord),
      s.officeLocation = some office →
      (((checkOfficeRange hav s (some loc)).isWithinRange = true) ↔
        ((hav office.coordinates.2 office.coordinates.1 loc.lat loc.lon : ℚ) ≤ office.radius)) ∧
      (∀ (d : ℤ) (r : ℚ), isWithin d r = true ↔ (d : ℚ) ≤ r) ∧
      (∀ (d e : ℤ) (r : ℚ), d ≤ e → isWithin e r = true → isWithin d r = true) ∧
      (∀ (d e : ℤ) (r : ℚ), d ≤ e → isWithin d r = false → isWithin e r = false) := by
  intro hav s office loc h
  refine ⟨?_, ?_, ?_, ?_⟩
  · simp [checkOfficeRange, h, isWithin]
  · intro d r
    simp [isWithin]
  · intro d e r hde he
    simp only [isWithin, decide_eq_true_eq] at he ⊢
    exact le_trans (by exact_mod_cast hde) he
  · intro d e r hde hd
    simp only [isWithin, decide_eq_false_iff_not, not_le] at hd ⊢
    exact lt_of_lt_of_le hd (by exact_mod_cast hde)

theorem checkOfficeRange_membership_witness :
    (checkOfficeRange (fun _ _ _ _ => 50)
      { currentLocation := some coord0, officeLocation := some defaultOffice,
        isWithinRange := false, distance := none } (some coord0)).isWithinRange = true := by
  exact (checkOfficeRange_membership (fun _ _ _ _ => 50)
    { currentLocation := some coord0, officeLocation := some defaultOffice,
      isWithinRange := false, distance := none } defaultOffice coord0 rfl).1.mpr (by norm_num [defaultOffice])

/-- C8 counterexample: a watch sample with accuracy exactly 0 m has
accuracy below the 30 m threshold, yet the callback ignores it — the
JavaScript condition `accuracy && accuracy < 30` is falsy at 0 — so
`currentLocation` is not updated. -/
theorem watch_zero_accuracy_counterexample :
    (0 : ℚ) < 30 ∧
    watchCallback (fun _ _ _ _ => 0) initGeoState ⟨18, 120⟩ (some 0) =
      (initGeoState, .ignored) ∧
    initGeoState.currentLocation = none := by
  refine ⟨by norm_num, rfl, rfl⟩

/-- C8 (amended): the continuous-watch callback ignores, with no state
change, every sample whose accuracy is missing, zero (JavaScript falsy)
or at least 30 m; a sample whose accuracy is present, nonzero and below
30 m updates `currentLocation` and re-evaluates the geofence through
`checkOfficeRange` when an office is known, else starts an office fetch. -/
theorem watch_accuracy_filter :
    ∀ (hav : ℚ → ℚ → ℚ → ℚ → ℤ) (s : GeoState) (loc : Coord) (acc : Option ℚ),
      (∀ a : ℚ, acc = some a → (a = 0 ∨ 30 ≤ a) →
        watchCallback hav s loc acc = (s, .ignored)) ∧
      (acc = none → watchCallback hav s loc acc = (s, .ignored)) ∧
      (∀ a : ℚ, acc = some a → a ≠ 0 → a < 30 →
        (watchCallback hav s loc acc).1.currentLocation = some loc ∧
        (∀ office, s.officeLocation = some office →
          watchCallback hav s loc acc =
            (checkOfficeRange hav { s with currentLocation := some loc } (some loc), .updated)) ∧
        (s.officeLocation = none →
          watchCallback hav s loc acc = ({ s with currentLocation := some loc }, .fetchOffice))) := by
  intro hav s loc acc
  refine ⟨?_, ?_, ?_⟩
  · intro a ha hbad
    subst ha
    rcases hbad with h0 | h30
    · subst h0
      simp [watchCallback]
    · have : ¬ a < 30 := not_lt.mpr h30
      simp [watchCallback, this]
  · intro h
    subst h
    rfl
  · intro a ha h0 h30
    subst ha
    have hcond : (!(a == 0) && decide (a < 30)) = true := by
      simp [h0, h30]
    refine ⟨?_, ?_, ?_⟩
    · cases hOff : s.officeLocation with
      | none => simp [watchCallback, hcond, hOff]
      | some office => simp [watchCallback, hcond, hOff, checkOfficeRange]
    · intro office hOff
      simp [watchCallback, hcond, hOff]
    · intro hOff
      simp [watchCallback, hcond, hOff]

theorem watch_accuracy_filter_witness :
    watchCallback (fun _ _ _ _ => 0) initGeoState ⟨18, 120⟩ (some 45) =
      (initGeoState, .ignored) ∧
    (watchCallback (fun _ _ _ _ => 0)
      { currentLocation := none, officeLocation := some defaultOffice,
        isWithinRange := false, distance := none } ⟨18, 120⟩ (some 5)).1.currentLocation =
      some ⟨18, 120⟩ := by
  refine ⟨(watch_accuracy_filter (fun _ _ _ _ => 0) initGeoState ⟨18, 120⟩ (some 45)).1
      45 rfl (Or.inr (by norm_num)),
    ((watch_accuracy_filter (fun _ _ _ _ => 0)
      { currentLocation := none, officeLocation := some defaultOffice,
        isWithinRange := false, distance := none } ⟨18, 120⟩ (some 5)).2.2
      5 rfl (by norm_num) (by norm_num)).1⟩

theorem geoStep_preserves_inv (hav : ℚ → ℚ → ℚ → ℚ → ℤ) (s : GeoState)
    (e : GeoEvent) (h : GeoInv s) : GeoInv (geoStep hav s e) := by
  obtain ⟨cl, ol, wr, di⟩ := s
  cases e with
  | gotLocation loc =>
    cases ol with
    | none =>
      intro hw
      obtain ⟨l, o, d, hcl, ho, hd, hr⟩ := h (by simpa [geoStep, checkOfficeRange] using hw)
      exact absurd ho (by simp)
    | some office =>
      intro hw
      refine ⟨loc, office,
        hav office.coordinates.2 office.coordinates.1 loc.lat loc.lon, rfl, rfl, rfl, ?_⟩
      have hw' : isWithin (hav office.coordinates.2 office.coordinates.1 loc.lat loc.lon)
          office.radius = true := by
        simpa [geoStep, checkOfficeRange] using hw
      simpa [isWithin] using hw'
  | watchSample loc acc =>
    cases acc with
    | none => exact h
    | some a =>
      cases ol with
      | some office =>
        by_cases hcond : (!(a == 0) && decide (a < 30)) = true
        · intro hw
          refine ⟨loc, office,
            hav office.coordinates.2 office.coordinates.1 loc.lat loc.lon, ?_, ?_, ?_, ?_⟩
          · simp [geoStep, watchCallback, hcond, checkOfficeRange]
          · simp [geoStep, watchCallback, hcond, checkOfficeRange]
          · simp [geoStep, watchCallback, hcond, checkOfficeRange]
          · have hw' : isWithin (hav office.coordinates.2 office.coordinates.1 loc.lat loc.lon)
                office.radius = true := by
              simpa [geoStep, watchCallback, hcond, checkOfficeRange] using hw
            simpa [isWithin] using hw'
        · have hcond' : (!(a == 0) && decide (a < 30)) = false := by
            simpa using hcond
          intro hw
          have hwr : wr = true := by
            simpa [geoStep, watchCallback, hcond'] using hw
          obtain ⟨l, o, d, hcl, ho, hd, hr⟩ := h hwr
          exact ⟨l, o, d, by simpa [geoStep, watchCallback, hcond'] using hcl,
            by simpa [geoStep, watchCallback, hcond'] using ho,
            by simpa [geoStep, watchCallback, hcond'] using hd, hr⟩
      | none =>
        by_cases hcond : (!(a == 0) && decide (a < 30)) = true
        · intro hw
          have hwr : wr = true := by
            simpa [geoStep, watchCallback, hcond] using hw
          obtain ⟨l, o, d, hcl, ho, hd, hr⟩ := h hwr
          exact absurd ho (by simp)
        · have hcond' : (!(a == 0) && decide (a < 30)) = false := by
            simpa using hcond
          intro hw
          have hwr : wr = true := by
            simpa [geoStep, watchCallback, hcond'] using hw
          obtain ⟨l, o, d, hcl, ho, hd, hr⟩ := h hwr
          exact absurd ho (by simp)
  | officeFetched office =>
    cases cl with
    | some loc =>
      intro hw
      refine ⟨loc, office,
        hav office.coordinates.2 office.coordinates.1 loc.lat loc.lon, ?_, ?_, ?_, ?_⟩
      · simp [geoStep, officeFetchOk, checkOfficeRange]
      · simp [geoStep, officeFetchOk, checkOfficeRange]
      · simp [geoStep, officeFetchOk, checkOfficeRange]
      · have hw' : isWithin (hav office.coordinates.2 office.coordinates.1 loc.lat loc.lon)
            office.radius = true := by
          simpa [geoStep, officeFetchOk, checkOfficeRange] using hw
        simpa [isWithin] using hw'
    | none =>
      intro hw
      simp [geoStep, officeFetchOk] at hw
  | officeFetchFailed =>
    intro hw
    simp [geoStep, officeFetchFail] at hw

theorem geoFold_preserves_inv (hav : ℚ → ℚ → ℚ → ℚ → ℤ) :
    ∀ (evs : List GeoEvent) (s : GeoState), GeoInv s →
      GeoInv (evs.foldl (geoStep hav) s) := by
  intro evs
  induction evs with
  | nil => intro s h; exact h
  | cons e rest ih => intro s h; exact ih _ (geoStep_preserves_inv hav s e h)

/-- C10: `isWithinRange` starts out false and is true in every reachable
geofence state only when a current location, an office location and a
stored rounded distance within that office's radius all exist;
`checkOfficeRange` changes nothing when the office or the location
argument is missing; the office fetch resets `isWithinRange` when no
location is known (also clearing the distance) and on failure, where it
substitutes the hardcoded default office. -/
theorem geofence_range_invariant :
    ∀ hav : ℚ → ℚ → ℚ → ℚ → ℤ,
      initGeoState.isWithinRange = false ∧
      (∀ s : GeoState, checkOfficeRange hav s none = s) ∧
      (∀ (s : GeoState) (loc : Option Coord), s.officeLocation = none →
        checkOfficeRange hav s loc = s) ∧
      (∀ (s : GeoState) (office : OfficeLocation), s.currentLocation = none →
        (officeFetchOk hav s office).isWithinRange = false ∧
        (officeFetchOk hav s office).distance = none) ∧
      (∀ s : GeoState, (officeFetchFail s).isWithinRange = false ∧
        (officeFetchFail s).officeLocation = some defaultOffice) ∧
      (∀ evs : List GeoEvent, GeoInv (geoRun hav evs)) := by
  intro hav
  refine ⟨rfl, ?_, ?_, ?_, ?_, ?_⟩
  · intro s
    obtain ⟨cl, ol, wr, di⟩ := s
    cases ol <;> rfl
  · intro s loc h
    obtain ⟨cl, ol, wr, di⟩ := s
    cases h
    cases loc <;> rfl
  · intro s office h
    obtain ⟨cl, ol, wr, di⟩ := s
    cases h
    exact ⟨rfl, rfl⟩
  · intro s
    exact ⟨rfl, rfl⟩
  · intro evs
    exact geoFold_preserves_inv hav evs initGeoState (by intro hw; cases hw)

theorem geofence_range_invariant_witness :
    checkOfficeRange (fun _ _ _ _ => 0) initGeoState (some ⟨18, 120⟩) = initGeoState ∧
    (geoRun (fun _ _ _ _ => 0)
      [GeoEvent.officeFetched defaultOffice, GeoEvent.gotLocation ⟨18, 120⟩]).isWithinRange = true ∧
    (∃ loc office d,
      (geoRun (fun _ _ _ _ => 0)
        [GeoEvent.officeFetched defaultOffice, GeoEvent.gotLocation ⟨18, 120⟩]).currentLocation = some loc ∧
      (geoRun (fun _ _ _ _ => 0)
        [GeoEvent.officeFetched defaultOffice, GeoEvent.gotLocation ⟨18, 120⟩]).officeLocation = some office ∧
      (geoRun (fun _ _ _ _ => 0)
        [GeoEvent.officeFetched defaultOffice, GeoEvent.gotLocation ⟨18, 120⟩]).distance = some d ∧
      (d : ℚ) ≤ office.radius) := by
  refine ⟨(geofence_range_invariant (fun _ _ _ _ => 0)).2.2.1 initGeoState (some ⟨18, 120⟩) rfl,
    by decide, (geofence_range_invariant (fun _ _ _ _ => 0)).2.2.2.2.2
      [GeoEvent.officeFetched defaultOffice, GeoEvent.gotLocation ⟨18, 120⟩] (by decide)⟩

theorem resolution_cases (prev : Session) (oA oP : Option TimeRecord) (nowHour : ℤ) :
    (if prev == .AM && oA.isSome then ((.AM : Session), oA)
     else if prev == .PM && oP.isSome then (.PM, oP)
     else if oA.isSome then (.AM, oA)
     else if oP.isSome then (.PM, oP)
     else (if nowHour < 12 then .AM else .PM, none)) =
    (match (match prev with | .AM => oA | .PM => oP) with
     | some r => (prev, some r)
     | none =>
       match oA with
       | some r => (.AM, some r)
       | none =>
         match oP with
         | some r => (.PM, some r)
         | none => (if nowHour < 12 then .AM else .PM, none)) := by
  cases prev <;> cases oA <;> cases oP <;> rfl

/-- C2: the session resolution recomputed on each records refresh follows
the specification's order — `reconcile` agrees with `reconcileSpec`
(previous session's open record first, then an open AM record, then an
open PM record, then the hour of day with no active record) on every
record list and time, and on the spec's concrete tests: one open-AM
record at hour 13 keeps AM with that record, an empty list resolves to AM
at hour 9 and PM at hour 14 with no active record. -/
theorem reconcile_resolution_order :
    (∀ (dayOf : String → ℤ) (today : ℤ) (prev : Session) (nowHour : ℤ)
       (records : List TimeRecord),
      reconcile dayOf today prev nowHour records =
        reconcileSpec dayOf today prev nowHour records) ∧
    (∀ prev : Session, reconcile (fun _ => 0) 0 prev 13 [recAM] = (.AM, some recAM)) ∧
    (∀ prev : Session, reconcile (fun _ => 0) 0 prev 9 [] = (.AM, none)) ∧
    (∀ prev : Session, reconcile (fun _ => 0) 0 prev 14 [] = (.PM, none)) := by
  refine ⟨?_, ?_, ?_, ?_⟩
  · intro dayOf today prev nowHour records
    cases prev
    · exact resolution_cases .AM _ _ _
    · exact resolution_cases .PM _ _ _
  · intro prev
    cases prev <;> rfl
  · intro prev
    cases prev <;> rfl
  · intro prev
    cases prev <;> rfl

/-- C6: for time-tracking authentications (forced, or a prompt containing
"time in" or "time out") `authenticate` returns true exactly when
hardware is available, a biometric is enrolled, and the platform call —
made with the device-passcode fallback disabled — succeeds; the result
does not depend on the `enabled` preference. -/
theorem authenticate_time_tracking_policy :
    ∀ (status : BiometricStatus) (authImpl : AuthOptions → Bool)
      (prompt : String) (force : Bool),
      force = true ∨
        (strIncludes prompt "time in" || strIncludes prompt "time out") = true →
      ((authenticate status authImpl prompt force = true ↔
        (status.available = true ∧ status.enrolled = true ∧
          authImpl { promptMessage := prompt, fallbackLabel := "",
                     disableDeviceFallback := true } = true)) ∧
       (∀ e : Bool, authenticate { status with enabled := e } authImpl prompt force =
          authenticate status authImpl prompt force)) := by
  intro status authImpl prompt force h
  obtain ⟨av, en, enab⟩ := status
  constructor
  · rcases h with hf | ht
    · subst hf
      cases av <;> cases en <;> simp [authenticate]
    · cases av <;> cases en <;> simp [authenticate, ht]
  · intro e
    rcases h with hf | ht
    · subst hf
      cases av <;> cases en <;> simp [authenticate]
    · cases av <;> cases en <;> simp [authenticate, ht]

theorem authenticate_time_tracking_policy_witness :
    authenticate bioOn allowAll "Authenticate to time in" true = true ∧
    authenticate ⟨true, true, true⟩ allowAll "Authenticate to time in" true =
      authenticate ⟨true, true, false⟩ allowAll "Authenticate to time in" true := by
  refine ⟨(authenticate_time_tracking_policy bioOn allowAll
      "Authenticate to time in" true (Or.inl rfl)).1.mpr ⟨rfl, rfl, rfl⟩,
    (authenticate_time_tracking_policy ⟨true, true, false⟩ allowAll
      "Authenticate to time in" true (Or.inl rfl)).2 true⟩

/-- C1 counterexample: in the reachable state with no location fix,
`withinRange = false` and a stale stored distance of 150 m, `handleTimeIn`
surfaces the location-error toast, which does not contain the numeric
distance "150" — so not every `withinRange = false` invocation surfaces a
message containing the current distance. -/
theorem timeIn_denial_message_counterexample :
    sNoLoc.isWithinRange = false ∧ sNoLoc.distance = some 150 ∧
    handleTimeIn sNoLoc bioOn allowAll (some "tok") (.ok "m") =
      ([.toastEv "Unable to get your current location" "error"], sNoLoc) ∧
    strIncludes "Unable to get your current location" "150" = false := by
  refine ⟨rfl, rfl, rfl, by decide⟩

/-- C1 (amended): whenever `withinRange = false`, `handleTimeIn` performs
no biometric-gate step (neither the status check nor `authenticate`),
issues no network request and leaves the state unchanged — the geofence
is checked strictly before biometrics; when a current location exists the
denial toast is the range message, and it contains the numeric distance
whenever the distance state is set (with no location fix the
location-error toast is surfaced instead). -/
theorem timeIn_denied_geofence_before_biometrics :
    ∀ (s : TTState) (bio : BiometricStatus) (authImpl : AuthOptions → Bool)
      (token : Option String) (server : ServerReply),
      s.isWithinRange = false →
      (∀ e ∈ (handleTimeIn s bio authImpl token server).1,
        isBioEvent e = false ∧ isNetPost e = false) ∧
      (handleTimeIn s bio authImpl token server).2 = s ∧
      (∀ loc, s.currentLocation = some loc →
        (handleTimeIn s bio authImpl token server).1 =
          [.toastEv (timeInRangeMsg s.distance) "warning"]) ∧
      (∀ d : ℤ, s.distance = some d →
        strIncludes (timeInRangeMsg s.distance) (toString d) = true) := by
  intro s bio authImpl token server h
  obtain ⟨cl, wr, di, sess, atr, trs⟩ := s
  have hwr : wr = false := h
  subst hwr
  have hmsg : ∀ d : ℤ, di = some d →
      strIncludes (timeInRangeMsg di) (toString d) = true := by
    intro d hd
    subst hd
    have : timeInRangeMsg (some d) =
        "You must be within office range to time in. You are currently " ++
          toString d ++ " meters away from the office." := rfl
    rw [this]
    exact strIncludes_mid _ _ _
  cases cl with
  | none =>
    refine ⟨?_, rfl, ?_, hmsg⟩
    · intro e he
      simp only [handleTimeIn, List.mem_singleton] at he
      subst he
      exact ⟨rfl, rfl⟩
    · intro loc hloc
      cases hloc
  | some l =>
    refine ⟨?_, rfl, ?_, hmsg⟩
    · intro e he
      simp only [handleTimeIn, Bool.not_false, if_pos, List.mem_singleton] at he
      subst he
      exact ⟨rfl, rfl⟩
    · intro loc hloc
      rfl

theorem timeIn_denied_geofence_witness :
    (handleTimeIn
      { currentLocation := some coord0, isWithinRange := false, distance := some 150,
        activeSession := .AM, activeTimeRecord := none, timeRecords := [] }
      bioOn allowAll (some "tok") (.ok "m")).1 =
      [.toastEv (timeInRangeMsg (some 150)) "warning"] ∧
    strIncludes (timeInRangeMsg (some 150)) "150" = true := by
  have h := timeIn_denied_geofence_before_biometrics
    { currentLocation := some coord0, isWithinRange := false, distance := some 150,
      activeSession := .AM, activeTimeRecord := none, timeRecords := [] }
    bioOn allowAll (some "tok") (.ok "m") rfl
  exact ⟨h.2.2.1 coord0 rfl, h.2.2.2 150 rfl⟩

/-- C4 counterexample: with an active record, a location inside the
geofence, biometrics available and enrolled and a succeeding platform
call — all the claimed preconditions — but no stored auth token,
`handleTimeOut` issues no time-out request (it redirects to login), so
the preconditions alone do not guarantee the request. -/
theorem timeOut_missing_token_counterexample :
    sGood.activeTimeRecord = some r0 ∧ sGood.currentLocation.isSome = true ∧
    sGood.isWithinRange = true ∧ bioOn.available = true ∧ bioOn.enrolled = true ∧
    authenticate bioOn allowAll "Authenticate to time out" true = true ∧
    (handleTimeOut sGood bioOn allowAll none (.ok "m")).1.filter isNetPost = [] := by
  refine ⟨rfl, rfl, rfl, rfl, rfl, by decide, by decide⟩

/-- C4 (amended): `handleTimeOut` denies without any network request
unless an active record, a location, geofence membership, biometric
availability and enrollment, a successful `authenticate` and a stored
token all hold — in particular with no active record it only toasts the
"no active record" denial — and when they all hold it issues exactly one
time-out request, against the active record's id. -/
theorem timeOut_preconditions_and_request :
    ∀ (s : TTState) (bio : BiometricStatus) (authImpl : AuthOptions → Bool)
      (token : Option String) (server : ServerReply),
      (s.activeTimeRecord = none →
        handleTimeOut s bio authImpl token server =
          ([.toastEv "No active time record found" "error"], s)) ∧
      (∀ url, Ev.netPost url ∈ (handleTimeOut s bio authImpl token server).1 →
        ∃ r tok, s.activeTimeRecord = some r ∧
          url = "/api/time-records/" ++ r.rid ++ "/time-out" ∧
          s.currentLocation.isSome = true ∧ s.isWithinRange = true ∧
          bio.available = true ∧ bio.enrolled = true ∧
          authenticate bio authImpl "Authenticate to time out" true = true ∧
          token = some tok) ∧
      (∀ r tok, s.activeTimeRecord = some r → s.currentLocation.isSome = true →
        s.isWithinRange = true → bio.available = true → bio.enrolled = true →
        authenticate bio authImpl "Authenticate to time out" true = true →
        token = some tok →
        (handleTimeOut s bio authImpl token server).1.filter isNetPost =
          [.netPost ("/api/time-records/" ++ r.rid ++ "/time-out")]) := by
  intro s bio authImpl token server
  obtain ⟨cl, wr, di, sess, atr, trs⟩ := s
  obtain ⟨av, en, enab⟩ := bio
  refine ⟨?_, ?_, ?_⟩
  · intro h
    have : atr = none := h
    subst this
    rfl
  · intro url hurl
    cases atr with
    | none => simp [handleTimeOut] at hurl
    | some r =>
      cases cl with
      | none => simp [handleTimeOut] at hurl
      | some l =>
        cases wr with
        | false => simp [handleTimeOut] at hurl
        | true =>
          cases av with
          | false => simp [handleTimeOut] at hurl
          | true =>
            cases en with
            | false => simp [handleTimeOut] at hurl
            | true =>
              cases hauth : authenticate ⟨true, true, enab⟩ authImpl
                  "Authenticate to time out" true with
              | false => simp [handleTimeOut, hauth] at hurl
              | true =>
                cases token with
                | none => simp [handleTimeOut, hauth] at hurl
                | some tok =>
                  cases server with
                  | ok m =>
                    simp [handleTimeOut, hauth] at hurl
                    refine ⟨r, tok, rfl, ?_, rfl, rfl, rfl, rfl, rfl, rfl⟩
                    simpa using hurl
                  | fail e =>
                    simp [handleTimeOut, hauth] at hurl
                    refine ⟨r, tok, rfl, ?_, rfl, rfl, rfl, rfl, rfl, rfl⟩
                    simpa using hurl
  · intro r tok h1 h2 h3 h4 h5 h6 h7
    have h1' : atr = some r := h1
    subst h1'
    cases cl with
    | none => simp at h2
    | some l =>
      have h3' : wr = true := h3
      subst h3'
      have h4' : av = true := h4
      subst h4'
      have h5' : en = true := h5
      subst h5'
      subst h7
      cases server with
      | ok m => simp [handleTimeOut, h6, isNetPost, List.filter]
      | fail e => simp [handleTimeOut, h6, isNetPost, List.filter]

theorem timeOut_preconditions_witness :
    (handleTimeOut sGood bioOn allowAll (some "tok") (.ok "m")).1.filter isNetPost =
      [.netPost ("/api/time-records/" ++ r0.rid ++ "/time-out")] := by
  exact (timeOut_preconditions_and_request sGood bioOn allowAll (some "tok")
    (.ok "m")).2.2 r0 "tok" rfl rfl rfl rfl rfl (by decide) rfl

/-- C9: when a time-in or time-out submission fails, the local session
state is unchanged and no records refresh happens, and a non-empty server
`error` field is toasted verbatim whenever the request was actually
issued; the refresh only ever follows a success, which for time-out also
clears the active record. -/
theorem submission_failure_preserves_state :
    ∀ (s : TTState) (bio : BiometricStatus) (authImpl : AuthOptions → Bool)
      (token : Option String),
      (∀ errField, (handleTimeIn s bio authImpl token (.fail errField)).2 = s) ∧
      (∀ errField, Ev.refresh ∉ (handleTimeIn s bio authImpl token (.fail errField)).1) ∧
      (∀ e : String, e ≠ "" →
        Ev.netPost "/api/time-records/time-in" ∈
          (handleTimeIn s bio authImpl token (.fail (some e))).1 →
        Ev.toastEv e "error" ∈ (handleTimeIn s bio authImpl token (.fail (some e))).1) ∧
      (∀ errField, (handleTimeOut s bio authImpl token (.fail errField)).2 = s) ∧
      (∀ errField, Ev.refresh ∉ (handleTimeOut s bio authImpl token (.fail errField)).1) ∧
      (∀ (e : String) (r : TimeRecord), e ≠ "" → s.activeTimeRecord = some r →
        Ev.netPost ("/api/time-records/" ++ r.rid ++ "/time-out") ∈
          (handleTimeOut s bio authImpl token (.fail (some e))).1 →
        Ev.toastEv e "error" ∈ (handleTimeOut s bio authImpl token (.fail (some e))).1) ∧
      (∀ msg, Ev.refresh ∈ (handleTimeIn s bio authImpl token (.ok msg)).1 →
        Ev.toastEv msg "success" ∈ (handleTimeIn s bio authImpl token (.ok msg)).1) ∧
      (∀ msg, Ev.refresh ∈ (handleTimeOut s bio authImpl token (.ok msg)).1 →
        (handleTimeOut s bio authImpl token (.ok msg)).2 =
          { s with activeTimeRecord := none }) := by
  intro s bio authImpl token
  refine ⟨?_, ?_, ?_, ?_, ?_, ?_, ?_, ?_⟩
  · intro errField
    unfold handleTimeIn
    repeat' split
    all_goals rfl
  · intro errField
    unfold handleTimeIn
    repeat' split
    all_goals simp_all
  · intro e he hmem
    revert hmem
    unfold handleTimeIn
    repeat' split
    all_goals intro hmem
    all_goals simp_all [jsOrStr]
    all_goals subst_vars
    all_goals simp_all
  · intro errField
    unfold handleTimeOut
    repeat' split
    all_goals first | rfl | simp_all
  · intro errField
    unfold handleTimeOut
    repeat' split
    all_goals simp_all
  · intro e r he hr hmem
    revert hmem
    unfold handleTimeOut
    repeat' split
    all_goals intro hmem
    all_goals simp_all [jsOrStr]
    all_goals subst_vars
    all_goals simp_all
  · intro msg hmem
    revert hmem
    unfold handleTimeIn
    repeat' split
    all_goals intro hmem
    all_goals simp_all
  · intro msg hmem
    revert hmem
    unfold handleTimeOut
    repeat' split
    all_goals intro hmem
    all_goals first | rfl | simp_all

theorem submission_failure_witness :
    (handleTimeIn sGood bioOn allowAll (some "tok") (.fail (some "server says no"))).2 =
      sGood ∧
    Ev.toastEv "server says no" "error" ∈
      (handleTimeIn sGood bioOn allowAll (some "tok") (.fail (some "server says no"))).1 := by
  refine ⟨(submission_failure_preserves_state sGood bioOn allowAll (some "tok")).1
      (some "server says no"),
    (submission_failure_preserves_state sGood bioOn allowAll (some "tok")).2.2.1
      "server says no" (by decide) (by decide)⟩

/-- C3 counterexample: with an undertime date absent from the available
record dates and a badly formatted makeup date, `handleOffsetSubmit`
toasts the makeup-date-format error, not the undertime-date-existence
error — the code checks the format before the existence rule, so the
claimed validation sequence (existence first) does not match the code. -/
theorem offset_validation_order_counterexample :
    handleOffsetSubmit (fun d => d) (fun _ => 0) 0
      { selectedRecord := some rSel, makeupDate := "2025-1-1",
        undertimeDate := "2099-01-01", availableDates := [],
        timeRecords := [], undertime := 2, makeup := 1, token := some "tok" }
      (.ok "m") =
      [.toastEv "Makeup date must be in YYYY-MM-DD format" "error"] ∧
    ¬ handleOffsetSubmit (fun d => d) (fun _ => 0) 0
      { selectedRecord := some rSel, makeupDate := "2025-1-1",
        undertimeDate := "2099-01-01", availableDates := [],
        timeRecords := [], undertime := 2, makeup := 1, token := some "tok" }
      (.ok "m") =
      [.toastEv "Undertime date must exist in daily records" "error"] := by
  refine ⟨rfl, by decide⟩

/-- C3 (amended): `handleOffsetSubmit` validates in the code's sequence,
short-circuiting at the first failed rule with its specific message and
before any network call: a record must be selected; a provided makeup
date must match the YYYY-MM-DD pattern; the undertime date must exist
among the available record dates; the record bearing that date must be
found; a provided makeup date must be today or later (an empty makeup
date skips both makeup-date rules, and the hour values are not
revalidated here); a network request happens only when every rule passed
and a token is stored, and goes against the found record's id. -/
theorem offset_validation_order :
    ∀ (fmt : String → String) (dayVal : String → ℤ) (today : ℤ)
      (i : OffsetIn) (server : ServerReply),
      (i.selectedRecord = none →
        handleOffsetSubmit fmt dayVal today i server =
          [.toastEv "No record selected" "error"]) ∧
      (i.selectedRecord.isSome = true → i.makeupDate ≠ "" →
        matchesDatePattern i.makeupDate = false →
        handleOffsetSubmit fmt dayVal today i server =
          [.toastEv "Makeup date must be in YYYY-MM-DD format" "error"]) ∧
      (i.selectedRecord.isSome = true →
        (i.makeupDate = "" ∨ matchesDatePattern i.makeupDate = true) →
        i.availableDates.contains i.undertimeDate = false →
        handleOffsetSubmit fmt dayVal today i server =
          [.toastEv "Undertime date must exist in daily records" "error"]) ∧
      (i.selectedRecord.isSome = true →
        (i.makeupDate = "" ∨ matchesDatePattern i.makeupDate = true) →
        i.availableDates.contains i.undertimeDate = true →
        i.timeRecords.find? (fun rec => fmt rec.date == i.undertimeDate) = none →
        handleOffsetSubmit fmt dayVal today i server =
          [.toastEv "Could not find the selected undertime date record" "error"]) ∧
      (∀ ur, i.selectedRecord.isSome = true →
        (i.makeupDate = "" ∨ matchesDatePattern i.makeupDate = true) →
        i.availableDates.contains i.undertimeDate = true →
        i.timeRecords.find? (fun rec => fmt rec.date == i.undertimeDate) = some ur →
        i.makeupDate ≠ "" → dayVal i.makeupDate < today →
        handleOffsetSubmit fmt dayVal today i server =
          [.toastEv "Makeup date must be today or a future date" "error"]) ∧
      (∀ url, Ev.netPost url ∈ handleOffsetSubmit fmt dayVal today i server →
        ∃ ur tok, i.timeRecords.find? (fun rec => fmt rec.date == i.undertimeDate) = some ur ∧
          url = "/api/time-records/" ++ ur.rid ++ "/offset" ∧
          i.token = some tok ∧ i.selectedRecord.isSome = true ∧
          (i.makeupDate = "" ∨ (matchesDatePattern i.makeupDate = true ∧
            ¬ dayVal i.makeupDate < today)) ∧
          i.availableDates.contains i.undertimeDate = true) := by
  intro fmt dayVal today i server
  refine ⟨?_, ?_, ?_, ?_, ?_, ?_⟩
  · intro h
    simp [handleOffsetSubmit, h]
  · intro hsel hmd hpat
    rcases hs : i.selectedRecord with _ | r
    · rw [hs] at hsel
      simp at hsel
    · simp [handleOffsetSubmit, hs, hmd, hpat]
  · intro hsel hok hcontains
    rcases hs : i.selectedRecord with _ | r
    · rw [hs] at hsel
      simp at hsel
    · have hc : ¬ i.undertimeDate ∈ i.availableDates := by simpa using hcontains
      rcases hok with h | h
      · simp [handleOffsetSubmit, hs, h, hc]
      · simp [handleOffsetSubmit, hs, h, hc]
  · intro hsel hok hcontains hfind
    rcases hs : i.selectedRecord with _ | r
    · rw [hs] at hsel
      simp at hsel
    · have hc : i.undertimeDate ∈ i.availableDates := by simpa using hcontains
      rcases hok with h | h
      · simp [handleOffsetSubmit, hs, h, hc, hfind]
      · simp [handleOffsetSubmit, hs, h, hc, hfind]
  · intro ur hsel hok hcontains hfind hmd hday
    rcases hs : i.selectedRecord with _ | r
    · rw [hs] at hsel
      simp at hsel
    · have hc : i.undertimeDate ∈ i.availableDates := by simpa using hcontains
      rcases hok with h | h
      · exact absurd h hmd
      · simp [handleOffsetSubmit, hs, h, hc, hfind, hmd, hday]
  · intro url hmem
    rcases hs : i.selectedRecord with _ | r
    · simp [handleOffsetSubmit, hs] at hmem
    · cases hpat : (!(i.makeupDate == "") && !(matchesDatePattern i.makeupDate)) with
      | true =>
        have hp : i.makeupDate ≠ "" ∧ matchesDatePattern i.makeupDate = false := by
          simpa using hpat
        simp [handleOffsetSubmit, hs, hp.1, hp.2] at hmem
      | false =>
        have hp : i.makeupDate = "" ∨ matchesDatePattern i.makeupDate = true := by
          by_cases hmd : i.makeupDate = ""
          · exact Or.inl hmd
          · refine Or.inr ?_
            have h2 : (!(i.makeupDate == "") && !(matchesDatePattern i.makeupDate)) = false :=
              hpat
            cases hq : matchesDatePattern i.makeupDate with
            | true => rfl
            | false =>
              rw [show (!(i.makeupDate == "") && !(matchesDatePattern i.makeupDate)) = true by
                simp [hmd, hq]] at h2
              simp at h2
        cases hcont : i.availableDates.contains i.undertimeDate with
        | false =>
          have hc : ¬ i.undertimeDate ∈ i.availableDates := by simpa using hcont
          rcases hp with h | h
          · simp [handleOffsetSubmit, hs, h, hc] at hmem
          · simp [handleOffsetSubmit, hs, h, hc] at hmem
        | true =>
          have hc : i.undertimeDate ∈ i.availableDates := by simpa using hcont
          cases hfind : i.timeRecords.find? (fun rec => fmt rec.date == i.undertimeDate) with
          | none =>
            rcases hp with h | h
            · simp [handleOffsetSubmit, hs, h, hc, hfind] at hmem
            · simp [handleOffsetSubmit, hs, h, hc, hfind] at hmem
          | some ur' =>
            have hdneg2 : (!(i.makeupDate == "") && decide (dayVal i.makeupDate < today)) = true →
                ¬ i.makeupDate = "" ∧ dayVal i.makeupDate < today := by
              intro h
              simpa using h
            cases hday : (!(i.makeupDate == "") && decide (dayVal i.makeupDate < today)) with
            | true =>
              have hd := hdneg2 hday
              rcases hp with h | h
              · exact absurd h hd.1
              · simp [handleOffsetSubmit, hs, h, hc, hfind, hd.1, hd.2] at hmem
            | false =>
              have hd2 : ¬ (¬ i.makeupDate = "" ∧ dayVal i.makeupDate < today) := by
                intro hcontra
                rw [show (!(i.makeupDate == "") && decide (dayVal i.makeupDate < today)) = true by
                  simp [hcontra.1, hcontra.2]] at hday
                simp at hday
              have hmdok : i.makeupDate = "" ∨ (matchesDatePattern i.makeupDate = true ∧
                  ¬ dayVal i.makeupDate < today) := by
                rcases hp with h | h
                · exact Or.inl h
                · by_cases hmd : i.makeupDate = ""
                  · exact Or.inl hmd
                  · exact Or.inr ⟨h, fun hlt => hd2 ⟨hmd, hlt⟩⟩
              cases htok : i.token with
              | none =>
                rcases hp with h | h
                · simp [handleOffsetSubmit, hs, h, hc, hfind, hd2, htok] at hmem
                · simp [handleOffsetSubmit, hs, h, hc, hfind, hd2, htok] at hmem
              | some tok =>
                cases server with
                | ok m =>
                  rcases hp with h | h <;>
                    simp [handleOffsetSubmit, hs, h, hc, hfind, hd2, htok] at hmem <;>
                    exact ⟨ur', tok, rfl, by simpa using hmem, rfl, by simp [hs], hmdok, by simpa using hc⟩
                | fail e =>
                  rcases hp with h | h <;>
                    simp [handleOffsetSubmit, hs, h, hc, hfind, hd2, htok] at hmem <;>
                    exact ⟨ur', tok, rfl, by simpa using hmem, rfl, by simp [hs], hmdok, by simpa using hc⟩

theorem offset_validation_order_witness :
    handleOffsetSubmit (fun d => d) (fun _ => 0) 0
      { selectedRecord := some rSel, makeupDate := "abcd-ef-gh",
        undertimeDate := "2025-09-01", availableDates := ["2025-09-01"],
        timeRecords := [rSel], undertime := 2, makeup := 1, token := some "tok" }
      (.ok "m") =
      [.toastEv "Makeup date must be in YYYY-MM-DD format" "error"] := by
  exact (offset_validation_order (fun d => d) (fun _ => 0) 0
    { selectedRecord := some rSel, makeupDate := "abcd-ef-gh",
      undertimeDate := "2025-09-01", availableDates := ["2025-09-01"],
      timeRecords := [rSel], undertime := 2, makeup := 1, token := some "tok" }
    (.ok "m")).2.1 rfl (by decide) (by decide)

theorem haversineMeters_def (oLat oLon uLat uLon : ℝ) :
    haversineMeters oLat oLon uLat uLon =
      round ((6371000 : ℝ) * (2 * jsAtan2
        (Real.sqrt (Real.sin ((oLat - uLat) * Real.pi / 180 / 2) *
            Real.sin ((oLat - uLat) * Real.pi / 180 / 2) +
          Real.cos (uLat * Real.pi / 180) * Real.cos (oLat * Real.pi / 180) *
            (Real.sin ((oLon - uLon) * Real.pi / 180 / 2) *
              Real.sin ((oLon - uLon) * Real.pi / 180 / 2))))
        (Real.sqrt (1 - (Real.sin ((oLat - uLat) * Real.pi / 180 / 2) *
            Real.sin ((oLat - uLat) * Real.pi / 180 / 2) +
          Real.cos (uLat * Real.pi / 180) * Real.cos (oLat * Real.pi / 180) *
            (Real.sin ((oLon - uLon) * Real.pi / 180 / 2) *
              Real.sin ((oLon - uLon) * Real.pi / 180 / 2))))))) := rfl

theorem haversine_self (lat lon : ℝ) : haversineMeters lat lon lat lon = 0 := by
  rw [haversineMeters_def]
  simp [sub_self, zero_mul, zero_div, Real.sin_zero, mul_zero, add_zero,
    Real.sqrt_zero, sub_zero, Real.sqrt_one, jsAtan2, Real.arctan_zero]

theorem haversine_comm (aLat aLon bLat bLon : ℝ) :
    haversineMeters aLat aLon bLat bLon = haversineMeters bLat bLon aLat aLon := by
  rw [haversineMeters_def, haversineMeters_def]
  have hs : ∀ x y : ℝ,
      Real.sin ((x - y) * Real.pi / 180 / 2) * Real.sin ((x - y) * Real.pi / 180 / 2) =
        Real.sin ((y - x) * Real.pi / 180 / 2) * Real.sin ((y - x) * Real.pi / 180 / 2) := by
    intro x y
    have hxy : (y - x) * Real.pi / 180 / 2 = -((x - y) * Real.pi / 180 / 2) := by ring
    rw [hxy, Real.sin_neg]
    ring
  rw [hs aLat bLat, hs aLon bLon,
    mul_comm (Real.cos (bLat * Real.pi / 180)) (Real.cos (aLat * Real.pi / 180))]

theorem haversine_north_100 :
    haversineMeters 18.2058 120.5910 18.2067 120.5910 = 100 := by
  rw [haversineMeters_def]
  have h1 : ((18.2058 : ℝ) - 18.2067) * Real.pi / 180 / 2 = -(Real.pi / 400000) := by
    ring_nf
  have h3 : ((120.5910 : ℝ) - 120.5910) * Real.pi / 180 / 2 = 0 := by ring
  rw [h1, h3, Real.sin_zero, Real.sin_neg]
  have hpi := Real.pi_pos
  have hs_pos : (0 : ℝ) < Real.pi / 400000 := by positivity
  have hs_lt : Real.pi / 400000 < Real.pi / 2 := by nlinarith
  have hs_le_pi : Real.pi / 400000 ≤ Real.pi := by nlinarith
  have hsin_nonneg : 0 ≤ Real.sin (Real.pi / 400000) :=
    Real.sin_nonneg_of_nonneg_of_le_pi hs_pos.le hs_le_pi
  have hcos_pos : 0 < Real.cos (Real.pi / 400000) :=
    Real.cos_pos_of_mem_Ioo ⟨by nlinarith, hs_lt⟩
  have hneg : -Real.sin (Real.pi / 400000) * -Real.sin (Real.pi / 400000) =
      Real.sin (Real.pi / 400000) * Real.sin (Real.pi / 400000) := by ring
  rw [hneg, mul_zero, mul_zero, add_zero, Real.sqrt_mul_self hsin_nonneg]
  have hpyth : (1 : ℝ) - Real.sin (Real.pi / 400000) * Real.sin (Real.pi / 400000) =
      Real.cos (Real.pi / 400000) * Real.cos (Real.pi / 400000) := by
    have h := Real.sin_sq_add_cos_sq (Real.pi / 400000)
    rw [pow_two, pow_two] at h
    linarith
  rw [hpyth, Real.sqrt_mul_self hcos_pos.le]
  have hatan : jsAtan2 (Real.sin (Real.pi / 400000)) (Real.cos (Real.pi / 400000)) =
      Real.pi / 400000 := by
    simp only [jsAtan2]
    rw [if_pos hcos_pos, ← Real.tan_eq_sin_div_cos]
    exact Real.arctan_tan (by nlinarith) hs_lt
  rw [hatan]
  have hval : (6371000 : ℝ) * (2 * (Real.pi / 400000)) = 6371 * Real.pi / 200 := by
    ring
  rw [hval, round_eq]
  have hl : (3.14 : ℝ) < Real.pi := Real.pi_gt_d2
  have hu : Real.pi < 3.15 := Real.pi_lt_d2
  apply Int.floor_eq_iff.mpr
  constructor
  · push_cast
    nlinarith
  · push_cast
    nlinarith

/-- C5: the distance of `checkOfficeRange` is the rounded Haversine
formula with Earth radius 6,371,000 m and office-minus-user deltas, as
embedded in `haversineMeters` (a total function of its real inputs);
it vanishes on equal coordinates, is symmetric, and for the office at
(18.2058, 120.5910) with the user 0.0009 degrees north it gives exactly
100 m, within the claimed 100 plus or minus 1 m. -/
theorem haversine_distance_properties :
    (∀ lat lon : ℝ, haversineMeters lat lon lat lon = 0) ∧
    (∀ aLat aLon bLat bLon : ℝ,
      haversineMeters aLat aLon bLat bLon = haversineMeters bLat bLon aLat aLon) ∧
    haversineMeters 18.2058 120.5910 18.2067 120.5910 = 100 ∧
    ((100 : ℤ) - 1 ≤ haversineMeters 18.2058 120.5910 18.2067 120.5910 ∧
      haversineMeters 18.2058 120.5910 18.2067 120.5910 ≤ 100 + 1) :=
  ⟨haversine_self, haversine_comm, haversine_north_100,
    by rw [haversine_north_100]; constructor <;> norm_num⟩
